import Mathlib

/-!
Verification development for the gesture classifier of
`src/components/GestureRecognition.tsx` (gesture-flow-sensei).

The classifier `classifyGesture` receives the `multiHandLandmarks` list
(a list of hands, each hand a list of 2-D landmark points), reads the
first hand, computes five finger-extension predicates and a few
inter-landmark distances, and walks an ordered first-match rule chain.
Coordinates are modelled as real numbers; the JavaScript
`Math.sqrt(Math.pow(dx,2) + Math.pow(dy,2))` becomes `Real.sqrt` of the
sum of squares.

Exception behaviour of the `try`/`catch` block: the source extracts
`points[0] .. points[20]` and dereferences the coordinates of the
landmarks at indices 2,3,4,5,6,8,9,10,12,13,14,16,17,18,20 on every
control path (the wrist, index 0, is extracted but never dereferenced).
In JavaScript, indexing past the end of the array yields `undefined` and
the subsequent property access throws, which the `catch` converts to
`{gesture: 'none', confidence: 0}`.  Hence a hand with at least 21
landmarks is classified from its first 21 landmarks, and a hand with at
most 20 landmarks (index 20 is then missing) yields `none`/0.  This is
embedded below by the length guard in `classifyPoints`.
-/

open Classical

/-- A 2-D hand landmark: normalized x,y coordinates (the source ignores z). -/
structure Pt where
  x : ℝ
  y : ℝ

/-- Planar Euclidean distance between two landmarks, as computed throughout
the source: `Math.sqrt(Math.pow(a.x - b.x, 2) + Math.pow(a.y - b.y, 2))`. -/
noncomputable def planarDist (a b : Pt) : ℝ :=
  Real.sqrt ((a.x - b.x) ^ 2 + (a.y - b.y) ^ 2)

/-- The closed set of gesture labels returned by `classifyGesture`. -/
inductive Gesture where
  | none
  | fist
  | open_hand
  | thumbs_up
  | thumbs_down
  | pointing
  | peace
  | ok
  | rock_on
  | call_me
  | gun
  | spock
  | l_shape
  | three
  | four
  | one
  | two
  | unknown
deriving DecidableEq, Repr

/-- The value returned by `classifyGesture`: a gesture label and a
confidence (the `timestamp` field is attached later, by the caller). -/
structure GestureResult where
  gesture : Gesture
  confidence : ℝ

/-- `isFingerExtended(tip, pip, mcp)` from the source:
`tipToMcp > (tipToPip + pipToMcp) * 0.8`. -/
def isFingerExtendedP (tip pip mcp : Pt) : Prop :=
  planarDist tip mcp > (planarDist tip pip + planarDist pip mcp) * 0.8

/-- `isThumbExtended()` from the source:
`thumbLength > baseLength * 1.2` with `thumbLength = dist(thumb_tip, thumb_mcp)`
and `baseLength = dist(thumb_ip, thumb_mcp)`. -/
def isThumbExtendedP (thumb_tip thumb_ip thumb_mcp : Pt) : Prop :=
  planarDist thumb_tip thumb_mcp > planarDist thumb_ip thumb_mcp * 1.2

/-- The angle (in degrees) between the thumb vector `tip - mcp` and the
index vector `tip - mcp`, via the dot-product/arc-cosine formula, exactly
as computed in the `l_shape` branch of the source. -/
noncomputable def lShapeAngle (thumb_tip thumb_mcp index_tip index_mcp : Pt) : ℝ :=
  let tvx := thumb_tip.x - thumb_mcp.x
  let tvy := thumb_tip.y - thumb_mcp.y
  let ivx := index_tip.x - index_mcp.x
  let ivy := index_tip.y - index_mcp.y
  Real.arccos ((tvx * ivx + tvy * ivy) /
      (Real.sqrt (tvx * tvx + tvy * tvy) * Real.sqrt (ivx * ivx + ivy * ivy))) * 180 / Real.pi

/-- The local `extendedFingers` count of the source:
`[isThumbUp, isIndexUp, isMiddleUp, isRingUp, isPinkyUp].filter(Boolean).length`,
the number of true predicates among the five. -/
noncomputable def extendedFingersCount (t i m r p : Prop) : ℕ :=
  (if t then 1 else 0) + (if i then 1 else 0) + (if m then 1 else 0) +
    (if r then 1 else 0) + (if p then 1 else 0)

/-- The body of `classifyGesture` after the landmark extraction: the five
extension predicates (the source's local constants `isThumbUp`,
`isIndexUp`, `isMiddleUp`, `isRingUp`, `isPinkyUp` are written inline
here), the extended-finger count, and the ordered first-match rule chain
(conditions on real numbers are resolved with classical decidability).
`planarDist thumb_tip index_tip` is the source's `thumbIndexDistance`.
Rules that compute an extra feature inside their `if` (spock's fingertip
gaps, l_shape's angle) and return only when a further test passes are
embedded as the conjunction of the outer pattern and the inner test,
which is the same first-match control flow.  (`wrist` and
`thumbMiddleDistance` are computed by the source but used in no rule, so
they are omitted.) -/
noncomputable def classifyCore (thumb_tip thumb_ip thumb_mcp index_tip index_pip index_mcp
    middle_tip middle_pip middle_mcp ring_tip ring_pip ring_mcp
    pinky_tip pinky_pip pinky_mcp : Pt) : GestureResult :=
  if extendedFingersCount (isThumbExtendedP thumb_tip thumb_ip thumb_mcp)
      (isFingerExtendedP index_tip index_pip index_mcp)
      (isFingerExtendedP middle_tip middle_pip middle_mcp)
      (isFingerExtendedP ring_tip ring_pip ring_mcp)
      (isFingerExtendedP pinky_tip pinky_pip pinky_mcp) = 0 then
    ⟨Gesture.fist, 0.95⟩
  else if extendedFingersCount (isThumbExtendedP thumb_tip thumb_ip thumb_mcp)
      (isFingerExtendedP index_tip index_pip index_mcp)
      (isFingerExtendedP middle_tip middle_pip middle_mcp)
      (isFingerExtendedP ring_tip ring_pip ring_mcp)
      (isFingerExtendedP pinky_tip pinky_pip pinky_mcp) = 5 then
    ⟨Gesture.open_hand, 0.95⟩
  else if isThumbExtendedP thumb_tip thumb_ip thumb_mcp ∧
      ¬ isFingerExtendedP index_tip index_pip index_mcp ∧
      ¬ isFingerExtendedP middle_tip middle_pip middle_mcp ∧
      ¬ isFingerExtendedP ring_tip ring_pip ring_mcp ∧
      ¬ isFingerExtendedP pinky_tip pinky_pip pinky_mcp then
    ⟨Gesture.thumbs_up, 0.9⟩
  else if ¬ isThumbExtendedP thumb_tip thumb_ip thumb_mcp ∧
      ¬ isFingerExtendedP index_tip index_pip index_mcp ∧
      ¬ isFingerExtendedP middle_tip middle_pip middle_mcp ∧
      ¬ isFingerExtendedP ring_tip ring_pip ring_mcp ∧
      ¬ isFingerExtendedP pinky_tip pinky_pip pinky_mcp ∧
      thumb_tip.y > thumb_mcp.y then
    ⟨Gesture.thumbs_down, 0.85⟩
  else if ¬ isThumbExtendedP thumb_tip thumb_ip thumb_mcp ∧
      isFingerExtendedP index_tip index_pip index_mcp ∧
      ¬ isFingerExtendedP middle_tip middle_pip middle_mcp ∧
      ¬ isFingerExtendedP ring_tip ring_pip ring_mcp ∧
      ¬ isFingerExtendedP pinky_tip pinky_pip pinky_mcp then
    ⟨Gesture.pointing, 0.9⟩
  else if ¬ isThumbExtendedP thumb_tip thumb_ip thumb_mcp ∧
      isFingerExtendedP index_tip index_pip index_mcp ∧
      isFingerExtendedP middle_tip middle_pip middle_mcp ∧
      ¬ isFingerExtendedP ring_tip ring_pip ring_mcp ∧
      ¬ isFingerExtendedP pinky_tip pinky_pip pinky_mcp then
    ⟨Gesture.peace, 0.9⟩
  else if isThumbExtendedP thumb_tip thumb_ip thumb_mcp ∧
      isFingerExtendedP index_tip index_pip index_mcp ∧
      ¬ isFingerExtendedP middle_tip middle_pip middle_mcp ∧
      ¬ isFingerExtendedP ring_tip ring_pip ring_mcp ∧
      ¬ isFingerExtendedP pinky_tip pinky_pip pinky_mcp ∧
      planarDist thumb_tip index_tip < 0.06 then
    ⟨Gesture.ok, 0.9⟩
  else if ¬ isThumbExtendedP thumb_tip thumb_ip thumb_mcp ∧
      isFingerExtendedP index_tip index_pip index_mcp ∧
      ¬ isFingerExtendedP middle_tip middle_pip middle_mcp ∧
      ¬ isFingerExtendedP ring_tip ring_pip ring_mcp ∧
      isFingerExtendedP pinky_tip pinky_pip pinky_mcp then
    ⟨Gesture.rock_on, 0.9⟩
  else if isThumbExtendedP thumb_tip thumb_ip thumb_mcp ∧
      ¬ isFingerExtendedP index_tip index_pip index_mcp ∧
      ¬ isFingerExtendedP middle_tip middle_pip middle_mcp ∧
      ¬ isFingerExtendedP ring_tip ring_pip ring_mcp ∧
      isFingerExtendedP pinky_tip pinky_pip pinky_mcp then
    ⟨Gesture.call_me, 0.85⟩
  else if isThumbExtendedP thumb_tip thumb_ip thumb_mcp ∧
      isFingerExtendedP index_tip index_pip index_mcp ∧
      ¬ isFingerExtendedP middle_tip middle_pip middle_mcp ∧
      ¬ isFingerExtendedP ring_tip ring_pip ring_mcp ∧
      ¬ isFingerExtendedP pinky_tip pinky_pip pinky_mcp ∧
      planarDist thumb_tip index_tip > 0.08 then
    ⟨Gesture.gun, 0.8⟩
  else if ¬ isThumbExtendedP thumb_tip thumb_ip thumb_mcp ∧
      isFingerExtendedP index_tip index_pip index_mcp ∧
      isFingerExtendedP middle_tip middle_pip middle_mcp ∧
      isFingerExtendedP ring_tip ring_pip ring_mcp ∧
      isFingerExtendedP pinky_tip pinky_pip pinky_mcp ∧
      (planarDist middle_tip ring_tip > planarDist index_tip middle_tip ∧
        planarDist middle_tip ring_tip > planarDist ring_tip pinky_tip) then
    ⟨Gesture.spock, 0.85⟩
  else if isThumbExtendedP thumb_tip thumb_ip thumb_mcp ∧
      isFingerExtendedP index_tip index_pip index_mcp ∧
      ¬ isFingerExtendedP middle_tip middle_pip middle_mcp ∧
      ¬ isFingerExtendedP ring_tip ring_pip ring_mcp ∧
      ¬ isFingerExtendedP pinky_tip pinky_pip pinky_mcp ∧
      (lShapeAngle thumb_tip thumb_mcp index_tip index_mcp > 70 ∧
        lShapeAngle thumb_tip thumb_mcp index_tip index_mcp < 110) then
    ⟨Gesture.l_shape, 0.8⟩
  else if isThumbExtendedP thumb_tip thumb_ip thumb_mcp ∧
      isFingerExtendedP index_tip index_pip index_mcp ∧
      isFingerExtendedP middle_tip middle_pip middle_mcp ∧
      ¬ isFingerExtendedP ring_tip ring_pip ring_mcp ∧
      ¬ isFingerExtendedP pinky_tip pinky_pip pinky_mcp then
    ⟨Gesture.three, 0.85⟩
  else if ¬ isThumbExtendedP thumb_tip thumb_ip thumb_mcp ∧
      isFingerExtendedP index_tip index_pip index_mcp ∧
      isFingerExtendedP middle_tip middle_pip middle_mcp ∧
      isFingerExtendedP ring_tip ring_pip ring_mcp ∧
      isFingerExtendedP pinky_tip pinky_pip pinky_mcp then
    ⟨Gesture.four, 0.85⟩
  else if ¬ isThumbExtendedP thumb_tip thumb_ip thumb_mcp ∧
      isFingerExtendedP index_tip index_pip index_mcp ∧
      ¬ isFingerExtendedP middle_tip middle_pip middle_mcp ∧
      ¬ isFingerExtendedP ring_tip ring_pip ring_mcp ∧
      ¬ isFingerExtendedP pinky_tip pinky_pip pinky_mcp then
    ⟨Gesture.one, 0.8⟩
  else if ¬ isThumbExtendedP thumb_tip thumb_ip thumb_mcp ∧
      isFingerExtendedP index_tip index_pip index_mcp ∧
      isFingerExtendedP middle_tip middle_pip middle_mcp ∧
      ¬ isFingerExtendedP ring_tip ring_pip ring_mcp ∧
      ¬ isFingerExtendedP pinky_tip pinky_pip pinky_mcp then
    ⟨Gesture.two, 0.8⟩
  else ⟨Gesture.unknown, 0.6⟩

/-- Classification of one hand (the `points` array of the source).  A hand
with at least 21 landmarks has every landmark the body dereferences, so
the `try` block completes; with at most 20 landmarks index 20
(`pinky_tip`) is `undefined`, the property access throws, and the `catch`
returns `{gesture: 'none', confidence: 0}` (see module comment). -/
noncomputable def classifyPoints (points : List Pt) : GestureResult :=
  if h : 21 ≤ points.length then
    classifyCore (points.get ⟨4, by omega⟩) (points.get ⟨3, by omega⟩)
      (points.get ⟨2, by omega⟩) (points.get ⟨8, by omega⟩)
      (points.get ⟨6, by omega⟩) (points.get ⟨5, by omega⟩)
      (points.get ⟨12, by omega⟩) (points.get ⟨10, by omega⟩)
      (points.get ⟨9, by omega⟩) (points.get ⟨16, by omega⟩)
      (points.get ⟨14, by omega⟩) (points.get ⟨13, by omega⟩)
      (points.get ⟨20, by omega⟩) (points.get ⟨18, by omega⟩)
      (points.get ⟨17, by omega⟩)
  else ⟨Gesture.none, 0⟩

/-- `classifyGesture(landmarks)`: `landmarks` is the `multiHandLandmarks`
list.  An absent or empty list returns `{none, 0}`; otherwise the first
hand (`landmarks[0]`) is classified. -/
noncomputable def classifyGesture : List (List Pt) → GestureResult
  | [] => ⟨Gesture.none, 0⟩
  | points :: _ => classifyPoints points

/-- An entry of the gesture history: the classified gesture, its
confidence, and the `Date.now()` timestamp supplied at recording time. -/
structure HistoryEntry where
  gesture : Gesture
  confidence : ℝ
  timestamp : ℤ

/-- The history entry built in `onResults` from a classification result
and the current time. -/
def mkEntry (r : GestureResult) (t : ℤ) : HistoryEntry :=
  ⟨r.gesture, r.confidence, t⟩

/-- JavaScript `l.slice(-n)`: the last `n` elements of `l` (all of `l`
when it is shorter than `n`). -/
def sliceLast (n : ℕ) (l : List α) : List α :=
  l.drop (l.length - n)

/-- The history update of `onResults`: when `result.confidence > 0.7` the
new entry is appended and `.slice(-10)` keeps the last 10 entries;
otherwise the history is left unchanged. -/
noncomputable def record (prev : List HistoryEntry) (r : GestureResult) (t : ℤ) :
    List HistoryEntry :=
  if r.confidence > 0.7 then sliceLast 10 (prev ++ [mkEntry r t]) else prev

/-- Folding `record` over a sequence of classification results with their
timestamps, in arrival order. -/
noncomputable def recordAll (init : List HistoryEntry)
    (rs : List (GestureResult × ℤ)) : List HistoryEntry :=
  rs.foldl (fun h p => record h p.1 p.2) init

/-- Modelled from the spec (§4.1), for comparison with the source
predicate `isFingerExtendedP`: "extended iff distance(tip, base_joint)
exceeds 0.8 × (distance(tip, mid_joint) + distance(mid_joint,
base_joint))". -/
def specFingerExtended (tip mid base : Pt) : Prop :=
  planarDist tip base > 0.8 * (planarDist tip mid + planarDist mid base)

/-- Modelled from the spec (§4.1), for comparison with the source
predicate `isThumbExtendedP`: "extended iff distance(tip, base) exceeds
1.2 × distance(mid, base)". -/
def specThumbExtended (tip mid base : Pt) : Prop :=
  planarDist tip base > 1.2 * planarDist mid base

/-! ### Basic facts about the planar distance -/

/-- Distance between two points on a common vertical line. -/
theorem planarDist_vert (x a b : ℝ) : planarDist ⟨x, a⟩ ⟨x, b⟩ = |a - b| := by
  unfold planarDist
  simp [Real.sqrt_sq_eq_abs]

/-- Distance between two points on a common horizontal line. -/
theorem planarDist_horiz (a b y : ℝ) : planarDist ⟨a, y⟩ ⟨b, y⟩ = |a - b| := by
  unfold planarDist
  simp [Real.sqrt_sq_eq_abs]

/-- Distance from a point to itself is zero. -/
theorem planarDist_self (p : Pt) : planarDist p p = 0 := by
  unfold planarDist
  simp

/-- Distances are nonnegative. -/
theorem planarDist_nonneg (a b : Pt) : 0 ≤ planarDist a b :=
  Real.sqrt_nonneg _

/-- A finger whose tip coincides with its base joint is never extended. -/
theorem not_fingerExtended_of_dist_zero (tip pip mcp : Pt)
    (h : planarDist tip mcp = 0) : ¬ isFingerExtendedP tip pip mcp := by
  unfold isFingerExtendedP
  rw [h]
  have h1 := planarDist_nonneg tip pip
  have h2 := planarDist_nonneg pip mcp
  intro hc
  nlinarith

/-- A thumb whose tip coincides with its MCP is never extended. -/
theorem not_thumbExtended_of_dist_zero (tip ip mcp : Pt)
    (h : planarDist tip mcp = 0) : ¬ isThumbExtendedP tip ip mcp := by
  unfold isThumbExtendedP
  rw [h]
  have h1 := planarDist_nonneg ip mcp
  intro hc
  nlinarith

/-! ### Unfolding the classifier on a 21-landmark hand -/

/-- On an explicit 21-landmark hand, `classifyGesture` reduces to
`classifyCore` applied to the landmarks the source extracts. -/
theorem classifyGesture_cons21 (p0 p1 p2 p3 p4 p5 p6 p7 p8 p9 p10 p11 p12 p13
    p14 p15 p16 p17 p18 p19 p20 : Pt) (rest : List (List Pt)) :
    classifyGesture ([p0, p1, p2, p3, p4, p5, p6, p7, p8, p9, p10, p11, p12,
        p13, p14, p15, p16, p17, p18, p19, p20] :: rest) =
      classifyCore p4 p3 p2 p8 p6 p5 p12 p10 p9 p16 p14 p13 p20 p18 p17 := rfl

/-! ### Evaluating the rule chain from the five extension predicates -/

/-- With no finger extended the first rule fires: `fist`, 0.95. -/
theorem classifyCore_fist (thumb_tip thumb_ip thumb_mcp index_tip index_pip index_mcp
    middle_tip middle_pip middle_mcp ring_tip ring_pip ring_mcp
    pinky_tip pinky_pip pinky_mcp : Pt)
    (hT : ¬ isThumbExtendedP thumb_tip thumb_ip thumb_mcp)
    (hI : ¬ isFingerExtendedP index_tip index_pip index_mcp)
    (hM : ¬ isFingerExtendedP middle_tip middle_pip middle_mcp)
    (hR : ¬ isFingerExtendedP ring_tip ring_pip ring_mcp)
    (hP : ¬ isFingerExtendedP pinky_tip pinky_pip pinky_mcp) :
    classifyCore thumb_tip thumb_ip thumb_mcp index_tip index_pip index_mcp
        middle_tip middle_pip middle_mcp ring_tip ring_pip ring_mcp
        pinky_tip pinky_pip pinky_mcp = ⟨Gesture.fist, 0.95⟩ := by
  simp [classifyCore, extendedFingersCount, hT, hI, hM, hR, hP]

/-- With exactly thumb and index extended and thumb-index tip distance
below 0.06, the `ok` rule is the first to fire. -/
theorem classifyCore_ok (thumb_tip thumb_ip thumb_mcp index_tip index_pip index_mcp
    middle_tip middle_pip middle_mcp ring_tip ring_pip ring_mcp
    pinky_tip pinky_pip pinky_mcp : Pt)
    (hT : isThumbExtendedP thumb_tip thumb_ip thumb_mcp)
    (hI : isFingerExtendedP index_tip index_pip index_mcp)
    (hM : ¬ isFingerExtendedP middle_tip middle_pip middle_mcp)
    (hR : ¬ isFingerExtendedP ring_tip ring_pip ring_mcp)
    (hP : ¬ isFingerExtendedP pinky_tip pinky_pip pinky_mcp)
    (hd : planarDist thumb_tip index_tip < 0.06) :
    classifyCore thumb_tip thumb_ip thumb_mcp index_tip index_pip index_mcp
        middle_tip middle_pip middle_mcp ring_tip ring_pip ring_mcp
        pinky_tip pinky_pip pinky_mcp = ⟨Gesture.ok, 0.9⟩ := by
  simp [classifyCore, extendedFingersCount, hT, hI, hM, hR, hP, hd]

/-- With exactly thumb and index extended and thumb-index tip distance
above 0.08, the `ok` rule fails and the `gun` rule fires. -/
theorem classifyCore_gun (thumb_tip thumb_ip thumb_mcp index_tip index_pip index_mcp
    middle_tip middle_pip middle_mcp ring_tip ring_pip ring_mcp
    pinky_tip pinky_pip pinky_mcp : Pt)
    (hT : isThumbExtendedP thumb_tip thumb_ip thumb_mcp)
    (hI : isFingerExtendedP index_tip index_pip index_mcp)
    (hM : ¬ isFingerExtendedP middle_tip middle_pip middle_mcp)
    (hR : ¬ isFingerExtendedP ring_tip ring_pip ring_mcp)
    (hP : ¬ isFingerExtendedP pinky_tip pinky_pip pinky_mcp)
    (hd : planarDist thumb_tip index_tip > 0.08) :
    classifyCore thumb_tip thumb_ip thumb_mcp index_tip index_pip index_mcp
        middle_tip middle_pip middle_mcp ring_tip ring_pip ring_mcp
        pinky_tip pinky_pip pinky_mcp = ⟨Gesture.gun, 0.8⟩ := by
  have hd06 : ¬ planarDist thumb_tip index_tip < 0.06 := by linarith
  simp [classifyCore, extendedFingersCount, hT, hI, hM, hR, hP, hd, hd06]

/-- With index, middle, ring and pinky extended, thumb not, and the
middle-ring fingertip gap not strictly the largest of the three adjacent
gaps, the `spock` rule falls through and the `four` rule fires. -/
theorem classifyCore_four (thumb_tip thumb_ip thumb_mcp index_tip index_pip index_mcp
    middle_tip middle_pip middle_mcp ring_tip ring_pip ring_mcp
    pinky_tip pinky_pip pinky_mcp : Pt)
    (hT : ¬ isThumbExtendedP thumb_tip thumb_ip thumb_mcp)
    (hI : isFingerExtendedP index_tip index_pip index_mcp)
    (hM : isFingerExtendedP middle_tip middle_pip middle_mcp)
    (hR : isFingerExtendedP ring_tip ring_pip ring_mcp)
    (hP : isFingerExtendedP pinky_tip pinky_pip pinky_mcp)
    (hgap : ¬ (planarDist middle_tip ring_tip > planarDist index_tip middle_tip ∧
      planarDist middle_tip ring_tip > planarDist ring_tip pinky_tip)) :
    classifyCore thumb_tip thumb_ip thumb_mcp index_tip index_pip index_mcp
        middle_tip middle_pip middle_mcp ring_tip ring_pip ring_mcp
        pinky_tip pinky_pip pinky_mcp = ⟨Gesture.four, 0.85⟩ := by
  simp [classifyCore, extendedFingersCount, hT, hI, hM, hR, hP, hgap]

set_option maxHeartbeats 1000000 in
/-- The `one` and `two` rules repeat the conditions of the earlier
`pointing` and `peace` rules, so no evaluation of the rule chain can
reach them. -/
theorem classifyCore_ne_one_two (thumb_tip thumb_ip thumb_mcp index_tip index_pip index_mcp
    middle_tip middle_pip middle_mcp ring_tip ring_pip ring_mcp
    pinky_tip pinky_pip pinky_mcp : Pt) :
    (classifyCore thumb_tip thumb_ip thumb_mcp index_tip index_pip index_mcp
        middle_tip middle_pip middle_mcp ring_tip ring_pip ring_mcp
        pinky_tip pinky_pip pinky_mcp).gesture ≠ Gesture.one ∧
    (classifyCore thumb_tip thumb_ip thumb_mcp index_tip index_pip index_mcp
        middle_tip middle_pip middle_mcp ring_tip ring_pip ring_mcp
        pinky_tip pinky_pip pinky_mcp).gesture ≠ Gesture.two := by
  by_cases hT : isThumbExtendedP thumb_tip thumb_ip thumb_mcp <;>
    by_cases hI : isFingerExtendedP index_tip index_pip index_mcp <;>
    by_cases hM : isFingerExtendedP middle_tip middle_pip middle_mcp <;>
    by_cases hR : isFingerExtendedP ring_tip ring_pip ring_mcp <;>
    by_cases hP : isFingerExtendedP pinky_tip pinky_pip pinky_mcp <;>
    (constructor <;>
      (simp [classifyCore, extendedFingersCount, hT, hI, hM, hR, hP]
       try (split_ifs <;> simp)))

set_option maxHeartbeats 1000000 in
/-- If the thumb or the index predicate is false (in particular whenever
the corresponding tip-to-MCP vector has zero magnitude, the only
configurations in which the angle computation would divide by zero), the
`l_shape` rule cannot fire, so its angle division is never evaluated. -/
theorem classifyCore_ne_l_shape (thumb_tip thumb_ip thumb_mcp index_tip index_pip index_mcp
    middle_tip middle_pip middle_mcp ring_tip ring_pip ring_mcp
    pinky_tip pinky_pip pinky_mcp : Pt)
    (h : ¬ isThumbExtendedP thumb_tip thumb_ip thumb_mcp ∨
      ¬ isFingerExtendedP index_tip index_pip index_mcp) :
    (classifyCore thumb_tip thumb_ip thumb_mcp index_tip index_pip index_mcp
        middle_tip middle_pip middle_mcp ring_tip ring_pip ring_mcp
        pinky_tip pinky_pip pinky_mcp).gesture ≠ Gesture.l_shape := by
  by_cases hT : isThumbExtendedP thumb_tip thumb_ip thumb_mcp <;>
    by_cases hI : isFingerExtendedP index_tip index_pip index_mcp <;>
    by_cases hM : isFingerExtendedP middle_tip middle_pip middle_mcp <;>
    by_cases hR : isFingerExtendedP ring_tip ring_pip ring_mcp <;>
    by_cases hP : isFingerExtendedP pinky_tip pinky_pip pinky_mcp <;>
    first
      | exact absurd (h.resolve_left (by simpa using hT)) (by simpa using hI)
      | (simp [classifyCore, extendedFingersCount, hT, hI, hM, hR, hP]
         try (split_ifs <;> simp))

/-- A hand with fewer than 21 landmarks is classified `none`/0 (the
exception path of the source — see `classifyPoints`). -/
theorem classifyPoints_short (points : List Pt) (h : points.length < 21) :
    classifyPoints points = ⟨Gesture.none, 0⟩ := by
  unfold classifyPoints
  rw [dif_neg]
  omega

/-- A hand whose landmarks all coincide (at least 21 of them) has every
finger-extension predicate false, so the `fist` rule fires. -/
theorem classifyPoints_all_same (n : ℕ) (hn : 21 ≤ n) (p : Pt) :
    classifyPoints (List.replicate n p) = ⟨Gesture.fist, 0.95⟩ := by
  unfold classifyPoints
  rw [dif_pos (by simpa using hn)]
  simp only [List.get_eq_getElem, List.getElem_replicate]
  exact classifyCore_fist p p p p p p p p p p p p p p p
    (not_thumbExtended_of_dist_zero p p p (planarDist_self p))
    (not_fingerExtended_of_dist_zero p p p (planarDist_self p))
    (not_fingerExtended_of_dist_zero p p p (planarDist_self p))
    (not_fingerExtended_of_dist_zero p p p (planarDist_self p))
    (not_fingerExtended_of_dist_zero p p p (planarDist_self p))

/-! ### Facts about the history buffer -/

/-- `sliceLast` keeps at most `n` elements. -/
theorem sliceLast_length_le (n : ℕ) (l : List α) : (sliceLast n l).length ≤ n := by
  simp [sliceLast]
  omega

/-- `sliceLast` of a list no longer than `n` is the whole list. -/
theorem sliceLast_of_length_le (n : ℕ) (l : List α) (h : l.length ≤ n) :
    sliceLast n l = l := by
  unfold sliceLast
  rw [Nat.sub_eq_zero_of_le h, List.drop_zero]

/-- Trimming to the last `n`, appending, and trimming again is the same
as trimming the full concatenation: the eviction is oldest-first. -/
theorem sliceLast_append_sliceLast (n : ℕ) (a b : List α) :
    sliceLast n (sliceLast n a ++ b) = sliceLast n (a ++ b) := by
  unfold sliceLast
  rw [List.drop_append_eq_append_drop, List.drop_append_eq_append_drop, List.drop_drop]
  simp only [List.length_append, List.length_drop]
  congr 1 <;> congr 1 <;> omega

/-- A result with confidence at most 0.7 is never recorded. -/
theorem record_rejected (prev : List HistoryEntry) (r : GestureResult) (t : ℤ)
    (h : r.confidence ≤ 0.7) : record prev r t = prev := by
  unfold record
  rw [if_neg (not_lt.mpr h)]

/-- One `record` step keeps the buffer within capacity 10. -/
theorem record_length_le (prev : List HistoryEntry) (r : GestureResult) (t : ℤ)
    (h : prev.length ≤ 10) : (record prev r t).length ≤ 10 := by
  unfold record
  split_ifs
  · exact sliceLast_length_le 10 _
  · exact h

/-- Any sequence of `record` steps keeps the buffer within capacity 10. -/
theorem recordAll_length_le (rs : List (GestureResult × ℤ))
    (init : List HistoryEntry) (h : init.length ≤ 10) :
    (recordAll init rs).length ≤ 10 := by
  induction rs generalizing init with
  | nil => exact h
  | cons q qs ih => exact ih (record init q.1 q.2) (record_length_le init q.1 q.2 h)

/-- Recording a sequence of accepted results (confidence above 0.7) keeps
exactly the last 10 of the appended entries, in arrival order. -/
theorem recordAll_accepted (rs : List (GestureResult × ℤ))
    (init : List HistoryEntry) (hinit : init.length ≤ 10)
    (hacc : ∀ q ∈ rs, q.1.confidence > 0.7) :
    recordAll init rs = sliceLast 10 (init ++ rs.map fun q => mkEntry q.1 q.2) := by
  induction rs generalizing init with
  | nil => simp [recordAll, sliceLast_of_length_le 10 init hinit]
  | cons q qs ih =>
    have hq : q.1.confidence > 0.7 := hacc q (List.mem_cons_self q qs)
    have step : record init q.1 q.2 = sliceLast 10 (init ++ [mkEntry q.1 q.2]) := by
      unfold record
      rw [if_pos hq]
    calc recordAll init (q :: qs)
        = recordAll (record init q.1 q.2) qs := rfl
      _ = sliceLast 10 (sliceLast 10 (init ++ [mkEntry q.1 q.2]) ++
            qs.map fun r => mkEntry r.1 r.2) := by
          rw [ih _ (step ▸ sliceLast_length_le 10 _)
            (fun r hr => hacc r (List.mem_cons_of_mem q hr)), step]
      _ = sliceLast 10 ((init ++ [mkEntry q.1 q.2]) ++
            qs.map fun r => mkEntry r.1 r.2) := sliceLast_append_sliceLast 10 _ _
      _ = sliceLast 10 (init ++ (q :: qs).map fun r => mkEntry r.1 r.2) := by
          simp

/-! ### Concrete finger configurations used as test inputs -/

/-- A thumb laid out vertically at `(x,0),(x,1),(x,2)` (MCP, IP, tip) is
extended: length 2 exceeds 1.2 times base length 1. -/
theorem thumbExtended_col (x : ℝ) : isThumbExtendedP ⟨x, 2⟩ ⟨x, 1⟩ ⟨x, 0⟩ := by
  unfold isThumbExtendedP
  rw [planarDist_vert, planarDist_vert]
  norm_num

/-- A finger laid out vertically at `(x,0),(x,1),(x,2)` (MCP, PIP, tip) is
extended: 2 exceeds 0.8 times (1 + 1). -/
theorem fingerExtended_col (x : ℝ) : isFingerExtendedP ⟨x, 2⟩ ⟨x, 1⟩ ⟨x, 0⟩ := by
  unfold isFingerExtendedP
  rw [planarDist_vert, planarDist_vert, planarDist_vert]
  norm_num

/-- A finger with all three landmarks at the same point is not extended. -/
theorem fingerCurled_pt (p : Pt) : ¬ isFingerExtendedP p p p :=
  not_fingerExtended_of_dist_zero p p p (planarDist_self p)

/-- A thumb with all three landmarks at the same point is not extended. -/
theorem thumbCurled_pt (p : Pt) : ¬ isThumbExtendedP p p p :=
  not_thumbExtended_of_dist_zero p p p (planarDist_self p)

/-- A thumb folded so that its tip sits on its IP at `(0,1)`, above an MCP
at `(0,0)`: not extended (1 is not greater than 1 × 1.2), with tip
y-coordinate above the MCP y-coordinate. -/
theorem thumbFoldedDown : ¬ isThumbExtendedP ⟨0, 1⟩ ⟨0, 1⟩ ⟨0, 0⟩ := by
  unfold isThumbExtendedP
  rw [planarDist_vert]
  norm_num

/-! ### Claims -/

/-- C1 counterexample: a 21-landmark pose in which no finger-extension
predicate holds and the thumb tip's y-coordinate (1) is greater than the
thumb MCP's y-coordinate (0), yet `classifyGesture` returns `fist`/0.95,
not `thumbs_down`/0.85: the `fist` rule (`extendedFingers === 0`) is
checked first and shadows the `thumbs_down` rule. -/
theorem c1_counterexample :
    (¬ isThumbExtendedP ⟨0, 1⟩ ⟨0, 1⟩ ⟨0, 0⟩ ∧
      ¬ isFingerExtendedP ⟨1, 0⟩ ⟨1, 0⟩ ⟨1, 0⟩ ∧
      ¬ isFingerExtendedP ⟨2, 0⟩ ⟨2, 0⟩ ⟨2, 0⟩ ∧
      ¬ isFingerExtendedP ⟨3, 0⟩ ⟨3, 0⟩ ⟨3, 0⟩ ∧
      ¬ isFingerExtendedP ⟨4, 0⟩ ⟨4, 0⟩ ⟨4, 0⟩ ∧
      (Pt.mk 0 1).y > (Pt.mk 0 0).y) ∧
    classifyGesture [[⟨0, 0⟩, ⟨0, 0⟩, ⟨0, 0⟩, ⟨0, 1⟩, ⟨0, 1⟩, ⟨1, 0⟩, ⟨1, 0⟩,
        ⟨0, 0⟩, ⟨1, 0⟩, ⟨2, 0⟩, ⟨2, 0⟩, ⟨0, 0⟩, ⟨2, 0⟩, ⟨3, 0⟩, ⟨3, 0⟩,
        ⟨0, 0⟩, ⟨3, 0⟩, ⟨4, 0⟩, ⟨4, 0⟩, ⟨0, 0⟩, ⟨4, 0⟩]] =
      ⟨Gesture.fist, 0.95⟩ ∧
    classifyGesture [[⟨0, 0⟩, ⟨0, 0⟩, ⟨0, 0⟩, ⟨0, 1⟩, ⟨0, 1⟩, ⟨1, 0⟩, ⟨1, 0⟩,
        ⟨0, 0⟩, ⟨1, 0⟩, ⟨2, 0⟩, ⟨2, 0⟩, ⟨0, 0⟩, ⟨2, 0⟩, ⟨3, 0⟩, ⟨3, 0⟩,
        ⟨0, 0⟩, ⟨3, 0⟩, ⟨4, 0⟩, ⟨4, 0⟩, ⟨0, 0⟩, ⟨4, 0⟩]] ≠
      ⟨Gesture.thumbs_down, 0.85⟩ := by
  have hfist : classifyGesture [[⟨0, 0⟩, ⟨0, 0⟩, ⟨0, 0⟩, ⟨0, 1⟩, ⟨0, 1⟩, ⟨1, 0⟩,
      ⟨1, 0⟩, ⟨0, 0⟩, ⟨1, 0⟩, ⟨2, 0⟩, ⟨2, 0⟩, ⟨0, 0⟩, ⟨2, 0⟩, ⟨3, 0⟩, ⟨3, 0⟩,
      ⟨0, 0⟩, ⟨3, 0⟩, ⟨4, 0⟩, ⟨4, 0⟩, ⟨0, 0⟩, ⟨4, 0⟩]] = ⟨Gesture.fist, 0.95⟩ := by
    rw [classifyGesture_cons21]
    exact classifyCore_fist _ _ _ _ _ _ _ _ _ _ _ _ _ _ _
      thumbFoldedDown (fingerCurled_pt _) (fingerCurled_pt _) (fingerCurled_pt _)
      (fingerCurled_pt _)
  refine ⟨⟨thumbFoldedDown, fingerCurled_pt _, fingerCurled_pt _, fingerCurled_pt _,
    fingerCurled_pt _, by norm_num⟩, hfist, ?_⟩
  rw [hfist]
  simp

/-- C1 (amended): for every 21-landmark pose in which none of the five
finger-extension predicates holds and the thumb tip's y-coordinate is
greater than the thumb MCP's y-coordinate, `classifyGesture` returns
`fist` with confidence 0.95 — the `fist` rule precedes and shadows the
`thumbs_down` rule. -/
theorem c1_amended (p0 p1 p2 p3 p4 p5 p6 p7 p8 p9 p10 p11 p12 p13 p14 p15 p16
    p17 p18 p19 p20 : Pt)
    (hT : ¬ isThumbExtendedP p4 p3 p2)
    (hI : ¬ isFingerExtendedP p8 p6 p5)
    (hM : ¬ isFingerExtendedP p12 p10 p9)
    (hR : ¬ isFingerExtendedP p16 p14 p13)
    (hP : ¬ isFingerExtendedP p20 p18 p17)
    (hy : p4.y > p2.y) :
    classifyGesture [[p0, p1, p2, p3, p4, p5, p6, p7, p8, p9, p10, p11, p12,
        p13, p14, p15, p16, p17, p18, p19, p20]] = ⟨Gesture.fist, 0.95⟩ := by
  rw [classifyGesture_cons21]
  exact classifyCore_fist _ _ _ _ _ _ _ _ _ _ _ _ _ _ _ hT hI hM hR hP

/-- C1 witness: the amended theorem applied to the concrete pose of the
counterexample. -/
theorem c1_amended_witness :
    classifyGesture [[⟨0, 0⟩, ⟨0, 0⟩, ⟨0, 0⟩, ⟨0, 1⟩, ⟨0, 1⟩, ⟨1, 0⟩, ⟨1, 0⟩,
        ⟨0, 0⟩, ⟨1, 0⟩, ⟨2, 0⟩, ⟨2, 0⟩, ⟨0, 0⟩, ⟨2, 0⟩, ⟨3, 0⟩, ⟨3, 0⟩,
        ⟨0, 0⟩, ⟨3, 0⟩, ⟨4, 0⟩, ⟨4, 0⟩, ⟨0, 0⟩, ⟨4, 0⟩]] =
      ⟨Gesture.fist, 0.95⟩ :=
  c1_amended ⟨0, 0⟩ ⟨0, 0⟩ ⟨0, 0⟩ ⟨0, 1⟩ ⟨0, 1⟩ ⟨1, 0⟩ ⟨1, 0⟩ ⟨0, 0⟩ ⟨1, 0⟩
    ⟨2, 0⟩ ⟨2, 0⟩ ⟨0, 0⟩ ⟨2, 0⟩ ⟨3, 0⟩ ⟨3, 0⟩ ⟨0, 0⟩ ⟨3, 0⟩ ⟨4, 0⟩ ⟨4, 0⟩
    ⟨0, 0⟩ ⟨4, 0⟩ thumbFoldedDown (fingerCurled_pt _) (fingerCurled_pt _)
    (fingerCurled_pt _) (fingerCurled_pt _) (by norm_num)

/-- C2: the source finger-extension predicate agrees with the spec formula
"distance(tip, base) > 0.8 × (distance(tip, mid) + distance(mid, base))",
and the source thumb predicate agrees with the spec formula
"distance(tip, base) > 1.2 × distance(mid, base)"; all distances are
planar Euclidean distances (z ignored). -/
theorem c2_extension_predicates_match_spec (tip pip mcp t_tip t_ip t_mcp : Pt) :
    (isFingerExtendedP tip pip mcp ↔ specFingerExtended tip pip mcp) ∧
    (isThumbExtendedP t_tip t_ip t_mcp ↔ specThumbExtended t_tip t_ip t_mcp) := by
  unfold isFingerExtendedP specFingerExtended isThumbExtendedP specThumbExtended
  constructor <;> constructor <;> intro h <;> linarith

/-- C3 counterexample: a hand with 22 landmarks (not exactly 21) is not
classified `none`/0 — the source never checks the landmark count, only
that some hand is present, and 22 coincident landmarks classify as
`fist`/0.95 (the first 21 are used). -/
theorem c3_counterexample :
    (List.replicate 22 (Pt.mk 0 0)).length ≠ 21 ∧
    classifyGesture [List.replicate 22 (Pt.mk 0 0)] ≠ ⟨Gesture.none, 0⟩ := by
  constructor
  · simp
  · rw [show classifyGesture [List.replicate 22 (Pt.mk 0 0)] =
        classifyPoints (List.replicate 22 (Pt.mk 0 0)) from rfl,
      classifyPoints_all_same 22 (by norm_num) (Pt.mk 0 0)]
    simp

/-- C3 (amended): when the pose is absent (empty hand list) or the
supplied hand has fewer than 21 landmarks, `classifyGesture` returns
`{gesture: none, confidence: 0}`; being a function of its input alone,
repeated calls on the same invalid input yield the same result.  (A hand
with more than 21 landmarks is instead classified from its first 21.) -/
theorem c3_amended (lms : List (List Pt))
    (h : lms = [] ∨ ∃ hand rest, lms = hand :: rest ∧ hand.length < 21) :
    classifyGesture lms = ⟨Gesture.none, 0⟩ := by
  rcases h with rfl | ⟨hand, rest, rfl, hlen⟩
  · rfl
  · exact classifyPoints_short hand hlen

/-- C3 witness: the amended theorem applied to a one-landmark hand. -/
theorem c3_amended_witness :
    classifyGesture [[Pt.mk 0 0]] = ⟨Gesture.none, 0⟩ :=
  c3_amended [[Pt.mk 0 0]] (Or.inr ⟨[Pt.mk 0 0], [], rfl, by norm_num⟩)

/-- C4: on a 21-landmark pose with exactly the thumb and index extension
predicates true, a thumb-index tip distance strictly below 0.06 yields
`ok`/0.90, a distance strictly above 0.08 yields `gun`/0.80, and the two
threshold conditions are mutually exclusive. -/
theorem c4_ok_gun_thresholds (p0 p1 p2 p3 p4 p5 p6 p7 p8 p9 p10 p11 p12 p13
    p14 p15 p16 p17 p18 p19 p20 : Pt)
    (hT : isThumbExtendedP p4 p3 p2)
    (hI : isFingerExtendedP p8 p6 p5)
    (hM : ¬ isFingerExtendedP p12 p10 p9)
    (hR : ¬ isFingerExtendedP p16 p14 p13)
    (hP : ¬ isFingerExtendedP p20 p18 p17) :
    (planarDist p4 p8 < 0.06 →
      classifyGesture [[p0, p1, p2, p3, p4, p5, p6, p7, p8, p9, p10, p11, p12,
        p13, p14, p15, p16, p17, p18, p19, p20]] = ⟨Gesture.ok, 0.9⟩) ∧
    (planarDist p4 p8 > 0.08 →
      classifyGesture [[p0, p1, p2, p3, p4, p5, p6, p7, p8, p9, p10, p11, p12,
        p13, p14, p15, p16, p17, p18, p19, p20]] = ⟨Gesture.gun, 0.8⟩) ∧
    ¬ (planarDist p4 p8 < 0.06 ∧ planarDist p4 p8 > 0.08) := by
  refine ⟨fun hd => ?_, fun hd => ?_, fun hc => by linarith [hc.1, hc.2]⟩
  · rw [classifyGesture_cons21]
    exact classifyCore_ok _ _ _ _ _ _ _ _ _ _ _ _ _ _ _ hT hI hM hR hP hd
  · rw [classifyGesture_cons21]
    exact classifyCore_gun _ _ _ _ _ _ _ _ _ _ _ _ _ _ _ hT hI hM hR hP hd

/-- C4 witness: the theorem applied to a pinch pose (thumb and index
extended along the same column, tips coincident, distance 0 < 0.06),
giving `ok`/0.90. -/
theorem c4_witness :
    classifyGesture [[⟨0, 0⟩, ⟨0, 0⟩, ⟨0, 0⟩, ⟨0, 1⟩, ⟨0, 2⟩, ⟨0, 0⟩, ⟨0, 1⟩,
        ⟨0, 0⟩, ⟨0, 2⟩, ⟨2, 0⟩, ⟨2, 0⟩, ⟨0, 0⟩, ⟨2, 0⟩, ⟨3, 0⟩, ⟨3, 0⟩,
        ⟨0, 0⟩, ⟨3, 0⟩, ⟨4, 0⟩, ⟨4, 0⟩, ⟨0, 0⟩, ⟨4, 0⟩]] =
      ⟨Gesture.ok, 0.9⟩ :=
  (c4_ok_gun_thresholds ⟨0, 0⟩ ⟨0, 0⟩ ⟨0, 0⟩ ⟨0, 1⟩ ⟨0, 2⟩ ⟨0, 0⟩ ⟨0, 1⟩ ⟨0, 0⟩
    ⟨0, 2⟩ ⟨2, 0⟩ ⟨2, 0⟩ ⟨0, 0⟩ ⟨2, 0⟩ ⟨3, 0⟩ ⟨3, 0⟩ ⟨0, 0⟩ ⟨3, 0⟩ ⟨4, 0⟩
    ⟨4, 0⟩ ⟨0, 0⟩ ⟨4, 0⟩ (thumbExtended_col 0) (fingerExtended_col 0)
    (fingerCurled_pt _) (fingerCurled_pt _) (fingerCurled_pt _)).1
    (by rw [planarDist_self]; norm_num)

/-- C5 counterexample: a 21-landmark pose for which `classifyGesture`
returns `four` — index, middle, ring and pinky extended in parallel
columns, thumb curled, all three adjacent fingertip gaps equal to 1, so
the spock gap condition (middle-ring gap strictly largest) fails and the
pattern falls through to the `four` rule. -/
theorem c5_counterexample :
    ([⟨0, 0⟩, ⟨0, 0⟩, ⟨5, 5⟩, ⟨5, 5⟩, ⟨5, 5⟩, ⟨0, 0⟩, ⟨0, 1⟩, ⟨0, 0⟩, ⟨0, 2⟩,
        ⟨1, 0⟩, ⟨1, 1⟩, ⟨0, 0⟩, ⟨1, 2⟩, ⟨2, 0⟩, ⟨2, 1⟩, ⟨0, 0⟩, ⟨2, 2⟩,
        ⟨3, 0⟩, ⟨3, 1⟩, ⟨0, 0⟩, ⟨3, 2⟩] : List Pt).length = 21 ∧
    classifyGesture [[⟨0, 0⟩, ⟨0, 0⟩, ⟨5, 5⟩, ⟨5, 5⟩, ⟨5, 5⟩, ⟨0, 0⟩, ⟨0, 1⟩,
        ⟨0, 0⟩, ⟨0, 2⟩, ⟨1, 0⟩, ⟨1, 1⟩, ⟨0, 0⟩, ⟨1, 2⟩, ⟨2, 0⟩, ⟨2, 1⟩,
        ⟨0, 0⟩, ⟨2, 2⟩, ⟨3, 0⟩, ⟨3, 1⟩, ⟨0, 0⟩, ⟨3, 2⟩]] =
      ⟨Gesture.four, 0.85⟩ := by
  constructor
  · rfl
  · rw [classifyGesture_cons21]
    refine classifyCore_four _ _ _ _ _ _ _ _ _ _ _ _ _ _ _
      (thumbCurled_pt _) (fingerExtended_col 0) (fingerExtended_col 1)
      (fingerExtended_col 2) (fingerExtended_col 3) ?_
    rw [planarDist_horiz, planarDist_horiz, planarDist_horiz]
    norm_num

/-- C5 (amended): the `four` rule is reachable; it fires exactly when the
spock gap refinement fails.  For every 21-landmark pose with index,
middle, ring and pinky extended, thumb not extended, and the middle-ring
fingertip gap not strictly larger than both adjacent gaps,
`classifyGesture` returns `four`/0.85 (when the gap condition holds, the
earlier `spock` rule consumes the pattern instead). -/
theorem c5_amended (p0 p1 p2 p3 p4 p5 p6 p7 p8 p9 p10 p11 p12 p13 p14 p15 p16
    p17 p18 p19 p20 : Pt)
    (hT : ¬ isThumbExtendedP p4 p3 p2)
    (hI : isFingerExtendedP p8 p6 p5)
    (hM : isFingerExtendedP p12 p10 p9)
    (hR : isFingerExtendedP p16 p14 p13)
    (hP : isFingerExtendedP p20 p18 p17)
    (hgap : ¬ (planarDist p12 p16 > planarDist p8 p12 ∧
      planarDist p12 p16 > planarDist p16 p20)) :
    classifyGesture [[p0, p1, p2, p3, p4, p5, p6, p7, p8, p9, p10, p11, p12,
        p13, p14, p15, p16, p17, p18, p19, p20]] = ⟨Gesture.four, 0.85⟩ := by
  rw [classifyGesture_cons21]
  exact classifyCore_four _ _ _ _ _ _ _ _ _ _ _ _ _ _ _ hT hI hM hR hP hgap

/-- C5 witness: the amended theorem applied to the four-column pose of the
counterexample. -/
theorem c5_amended_witness :
    classifyGesture [[⟨0, 0⟩, ⟨0, 0⟩, ⟨5, 5⟩, ⟨5, 5⟩, ⟨5, 5⟩, ⟨0, 0⟩, ⟨0, 1⟩,
        ⟨0, 0⟩, ⟨0, 2⟩, ⟨1, 0⟩, ⟨1, 1⟩, ⟨0, 0⟩, ⟨1, 2⟩, ⟨2, 0⟩, ⟨2, 1⟩,
        ⟨0, 0⟩, ⟨2, 2⟩, ⟨3, 0⟩, ⟨3, 1⟩, ⟨0, 0⟩, ⟨3, 2⟩]] =
      ⟨Gesture.four, 0.85⟩ :=
  c5_amended ⟨0, 0⟩ ⟨0, 0⟩ ⟨5, 5⟩ ⟨5, 5⟩ ⟨5, 5⟩ ⟨0, 0⟩ ⟨0, 1⟩ ⟨0, 0⟩ ⟨0, 2⟩
    ⟨1, 0⟩ ⟨1, 1⟩ ⟨0, 0⟩ ⟨1, 2⟩ ⟨2, 0⟩ ⟨2, 1⟩ ⟨0, 0⟩ ⟨2, 2⟩ ⟨3, 0⟩ ⟨3, 1⟩
    ⟨0, 0⟩ ⟨3, 2⟩ (thumbCurled_pt _) (fingerExtended_col 0)
    (fingerExtended_col 1) (fingerExtended_col 2) (fingerExtended_col 3)
    (by rw [planarDist_horiz, planarDist_horiz, planarDist_horiz]; norm_num)

/-- C6: the `one` and `two` rules are unreachable duplicates — for every
input (any number of hands, any landmarks) `classifyGesture` never
returns gesture `one` (its condition repeats the earlier `pointing` rule)
nor gesture `two` (its condition repeats the earlier `peace` rule). -/
theorem c6_one_two_unreachable (lms : List (List Pt)) :
    (classifyGesture lms).gesture ≠ Gesture.one ∧
    (classifyGesture lms).gesture ≠ Gesture.two := by
  cases lms with
  | nil => exact ⟨by simp [classifyGesture], by simp [classifyGesture]⟩
  | cons hand rest =>
    show (classifyPoints hand).gesture ≠ Gesture.one ∧
      (classifyPoints hand).gesture ≠ Gesture.two
    by_cases h : 21 ≤ hand.length
    · unfold classifyPoints
      rw [dif_pos h]
      exact classifyCore_ne_one_two _ _ _ _ _ _ _ _ _ _ _ _ _ _ _
    · unfold classifyPoints
      rw [dif_neg h]
      exact ⟨by simp, by simp⟩

/-- C7 counterexample: the fully degenerate 21-landmark pose with every
landmark at the origin has the thumb tip coinciding with the thumb MCP
(vector magnitude zero, the configuration the claim says causes a
division by zero), yet `classifyGesture` returns `fist`/0.95, not
`{none, 0}`: the extension predicates are all false on coincident points,
so the `fist` rule fires before any angle is computed. -/
theorem c7_counterexample :
    planarDist (Pt.mk 0 0) (Pt.mk 0 0) = 0 ∧
    classifyGesture [List.replicate 21 (Pt.mk 0 0)] = ⟨Gesture.fist, 0.95⟩ ∧
    classifyGesture [List.replicate 21 (Pt.mk 0 0)] ≠ ⟨Gesture.none, 0⟩ := by
  have h : classifyGesture [List.replicate 21 (Pt.mk 0 0)] =
      ⟨Gesture.fist, 0.95⟩ :=
    classifyPoints_all_same 21 (by norm_num) (Pt.mk 0 0)
  refine ⟨planarDist_self _, h, ?_⟩
  rw [h]
  simp

/-- C7 (amended): a degenerate pose whose thumb tip coincides with the
thumb MCP, or whose index tip coincides with the index MCP (the zero-
magnitude configurations in the angle computation), makes the
corresponding extension predicate false, so the `l_shape` rule — the only
rule that divides by the product of those magnitudes — can never fire: no
division by zero is ever evaluated, the classifier totally returns an
ordinary result, and no exception reaches the caller. -/
theorem c7_amended (p0 p1 p2 p3 p4 p5 p6 p7 p8 p9 p10 p11 p12 p13 p14 p15 p16
    p17 p18 p19 p20 : Pt)
    (h : planarDist p4 p2 = 0 ∨ planarDist p8 p5 = 0) :
    (classifyGesture [[p0, p1, p2, p3, p4, p5, p6, p7, p8, p9, p10, p11, p12,
        p13, p14, p15, p16, p17, p18, p19, p20]]).gesture ≠ Gesture.l_shape := by
  rw [classifyGesture_cons21]
  refine classifyCore_ne_l_shape _ _ _ _ _ _ _ _ _ _ _ _ _ _ _ ?_
  rcases h with h | h
  · exact Or.inl (not_thumbExtended_of_dist_zero _ _ _ h)
  · exact Or.inr (not_fingerExtended_of_dist_zero _ _ _ h)

/-- C7 witness: the amended theorem applied to the all-coincident pose. -/
theorem c7_amended_witness :
    (classifyGesture [[⟨0, 0⟩, ⟨0, 0⟩, ⟨0, 0⟩, ⟨0, 0⟩, ⟨0, 0⟩, ⟨0, 0⟩, ⟨0, 0⟩,
        ⟨0, 0⟩, ⟨0, 0⟩, ⟨0, 0⟩, ⟨0, 0⟩, ⟨0, 0⟩, ⟨0, 0⟩, ⟨0, 0⟩, ⟨0, 0⟩,
        ⟨0, 0⟩, ⟨0, 0⟩, ⟨0, 0⟩, ⟨0, 0⟩, ⟨0, 0⟩, ⟨0, 0⟩]]).gesture ≠
      Gesture.l_shape :=
  c7_amended ⟨0, 0⟩ ⟨0, 0⟩ ⟨0, 0⟩ ⟨0, 0⟩ ⟨0, 0⟩ ⟨0, 0⟩ ⟨0, 0⟩ ⟨0, 0⟩ ⟨0, 0⟩
    ⟨0, 0⟩ ⟨0, 0⟩ ⟨0, 0⟩ ⟨0, 0⟩ ⟨0, 0⟩ ⟨0, 0⟩ ⟨0, 0⟩ ⟨0, 0⟩ ⟨0, 0⟩ ⟨0, 0⟩
    ⟨0, 0⟩ ⟨0, 0⟩ (Or.inl (planarDist_self _))

/-- C8: the history buffer accepts a result iff its confidence is strictly
above 0.7 (a result with confidence ≤ 0.7 leaves the buffer unchanged),
never exceeds length 10, and evicts oldest-first: after a sequence of 11
accepted results starting from the empty buffer, it holds exactly the
last 10 entries in arrival order. -/
theorem c8_history_buffer (rs : List (GestureResult × ℤ))
    (hacc : ∀ q ∈ rs, q.1.confidence > 0.7) (hlen : rs.length = 11) :
    recordAll [] rs = (rs.map fun q => mkEntry q.1 q.2).drop 1 ∧
    (recordAll [] rs).length = 10 ∧
    (∀ prev r t, r.confidence ≤ 0.7 → record prev r t = prev) ∧
    ∀ qs : List (GestureResult × ℤ), (recordAll [] qs).length ≤ 10 := by
  have hmain : recordAll [] rs =
      sliceLast 10 (rs.map fun q => mkEntry q.1 q.2) := by
    simpa using recordAll_accepted rs [] (by simp) hacc
  have hdrop : sliceLast 10 (rs.map fun q => mkEntry q.1 q.2) =
      (rs.map fun q => mkEntry q.1 q.2).drop 1 := by
    unfold sliceLast
    rw [List.length_map, hlen]
  refine ⟨hmain.trans hdrop, ?_, record_rejected,
    fun qs => recordAll_length_le qs [] (by simp)⟩
  rw [hmain.trans hdrop]
  simp [hlen]

/-- C8 witness: eleven accepted fist results (confidence 0.95 > 0.7) leave
the buffer holding exactly the last ten. -/
theorem c8_witness :
    recordAll [] (List.replicate 11 ((⟨Gesture.fist, 0.95⟩ : GestureResult), (0 : ℤ))) =
      ((List.replicate 11 ((⟨Gesture.fist, 0.95⟩ : GestureResult), (0 : ℤ))).map
        fun q => mkEntry q.1 q.2).drop 1 :=
  (c8_history_buffer _
    (fun q hq => by rw [List.eq_of_mem_replicate hq]; norm_num)
    (by simp)).1

/-- C9: the classifier is deterministic — it is a pure function of the
supplied landmark list, so identical landmark input always yields an
identical gesture label and confidence. -/
theorem c9_classifier_deterministic (l1 l2 : List (List Pt)) (h : l1 = l2) :
    classifyGesture l1 = classifyGesture l2 := by
  rw [h]

/-- C9 witness: the determinism theorem applied to a concrete input. -/
theorem c9_witness : classifyGesture [] = classifyGesture [] :=
  c9_classifier_deterministic [] [] rfl

/-- C10: `classifyGesture` reads only the first hand of the multi-hand
landmark list: prepending any further hands does not change the result,
which equals the classification of the first hand alone. -/
theorem c10_first_hand_only (hand : List Pt) (rest rest2 : List (List Pt)) :
    classifyGesture (hand :: rest) = classifyGesture [hand] ∧
    classifyGesture (hand :: rest) = classifyGesture (hand :: rest2) :=
  ⟨rfl, rfl⟩
